import Mathlib

/-!
# Verification of the Dashboard notification relay

A shallow embedding of `src/lib/dashboard.ts` from
`@atomist/automation-client-ext-dashboard`: the `messageSent` listener that
forwards outbound chat messages as dashboard `Notification` records.

Modelling conventions:
* JavaScript `undefined`/optional fields become `Option`.
* JavaScript string truthiness (`""` is falsy) is modelled with `String.isEmpty`.
* The two external collaborators — the GraphQL identity resolver and the
  event publisher — are modelled as, respectively, an oracle
  `lookup : String → String → Option String` (teamId, screenName ↦ GitHub
  login, `none` when the nested query result is absent at any level) and the
  ordered list of published events returned in an `Emission` record.
* `guid()` and `Date.now()` are ambient host calls, passed in as the
  parameters `genId` and `now`.
* lodash `_.uniq` compares elements with SameValueZero, which on JavaScript
  objects is reference identity; freshly-allocated objects are never equal
  under it.  Object identity is modelled by tagging each element with its
  allocation index (`List.enum`) before deduplicating.
-/

namespace Dashboard

/-- A key/value pair of a serialized command parameter
(`{name, value}` pushed in the flattening loop of `messageSent`). -/
structure Param where
  name : String
  value : Option String
deriving DecidableEq, Repr

/-- The `command` field of a `CommandReferencingAction`: remote command name
plus its parameter object.  The parameter object is modelled as an ordered
association list keyed by property name; a value of `none` models a falsy
JavaScript value (for which the source stores `undefined` instead of
`value.toString()`), a value of `some s` models a truthy value whose
`toString()` is `s`. -/
structure CmdRef where
  name : String
  parameters : List Param
deriving DecidableEq, Repr

/-- A `CommandReferencingAction` as read by the flattener: display text and
the referenced command. -/
structure CRAction where
  text : String
  command : CmdRef
deriving DecidableEq, Repr

/-- A slack-message attachment, restricted to the single field the relay
reads (`a.actions`).  `actions = none` models an attachment without an
`actions` property; a `none` entry inside the list models a falsy element
(dropped by the `.filter(a => a)` in the source). -/
structure Attachment where
  actions : Option (List (Option CRAction))
deriving DecidableEq, Repr

/-- A `SlackMessage`, restricted to the fields the relay reads. -/
structure SlackMessage where
  text : Option String
  attachments : Option (List Attachment)
deriving DecidableEq, Repr

/-- The `message` argument of `messageSent`: a bare string, a structured
slack message (recognized by the `isSlackMessage` capability predicate), or
anything else (which the relay drops). -/
inductive OutMessage where
  | str (s : String)
  | slack (m : SlackMessage)
  | other
deriving DecidableEq, Repr

/-- `MessageOptions`: correlation id, timestamp, time-to-live, post policy
and the `dashboard` forwarding-suppression flag. -/
structure MessageOptions where
  id : Option String
  ts : Option Nat
  ttl : Option Nat
  post : Option String
  dashboard : Option Bool
deriving DecidableEq, Repr

/-- A `SlackDestination`: a team id plus optional channel and user lists. -/
structure Dest where
  team : String
  channels : Option (List String)
  users : Option (List String)
deriving DecidableEq, Repr

/-- The `destinations` argument, typed `Destination | Destination[]` in the
source: absent (`undefined`), a single destination object, or an array. -/
inductive Destinations where
  | undef
  | single (d : Dest)
  | array (ds : List Dest)
deriving DecidableEq, Repr

/-- The `web.identity` subject of a web-session origin. -/
structure WebIdentity where
  sub : String
deriving DecidableEq, Repr

/-- The `web` part of an origin descriptor. -/
structure WebInfo where
  identity : Option WebIdentity
deriving DecidableEq, Repr

/-- The `slack` part of an origin descriptor (`slack.team.id`,
`slack.user.name`). -/
structure SlackInfo where
  teamId : String
  userName : String
deriving DecidableEq, Repr

/-- `ctx.source`: the origin descriptor of the original request. -/
structure Source where
  user_agent : String
  web : Option WebInfo
  slack : SlackInfo
deriving DecidableEq, Repr

/-- The slice of `HandlerContext` the relay reads: workspace id, origin
descriptor, and the name of the calling registration
(`(ctx as AutomationContextAware).context.name`). -/
structure Ctx where
  workspaceId : String
  source : Option Source
  registrationName : String
deriving DecidableEq, Repr

/-- The `recipient` sub-record of a `Notification`. -/
structure Recipient where
  address : String
deriving DecidableEq, Repr

/-- A flattened notification action (the source interface is spelled
`NotifactionAction`).  The selector fields (`parameterName`,
`parameterOptions`, `parameterOptionGroups`, `role`) are declared in the
source interface but never assigned by this relay, so they stay `none`. -/
structure NotifactionAction where
  text : String
  type : String
  registration : String
  command : String
  parameters : List Param
  parameterName : Option String
  role : Option String
deriving DecidableEq, Repr

/-- The `Notification` record published to the event bus. -/
structure Notification where
  ts : Nat
  key : String
  ttl : Option Nat
  post : Option String
  contentType : String
  body : String
  actions : List NotifactionAction
  recipient : Option Recipient
deriving DecidableEq, Repr

/-- The observable effect of one `messageSent` invocation: the identity
lookups issued against the GraphQL resolver (as (teamId, screenName) pairs,
in issue order) and the notifications handed to `messageClient.send`, in
push order. -/
structure Emission where
  queries : List (String × String)
  events : List Notification
deriving DecidableEq, Repr

/-- JavaScript `String.prototype.includes`: substring containment. -/
def includesStr (s pat : String) : Bool :=
  decide (pat.toList <:+: s.toList)

/-- The ignore pre-filter of `messageSent`:
`(options.id && options.id.includes("lifecycle")) || options.dashboard === false`,
computed only when `options` is truthy. -/
def ignoreOf : Option MessageOptions → Bool
  | some o =>
    (match o.id with
     | some s => !s.isEmpty && includesStr s "lifecycle"
     | none => false)
    || (o.dashboard == some false)
  | none => false

/-- The message-normalization step: a bare string is wrapped as
`{ text: message }`, a recognized slack message passes through, anything
else leaves `slackMessage` undefined (the event is then dropped). -/
def normalize : OutMessage → Option SlackMessage
  | .str s => some { text := some s, attachments := none }
  | .slack m => some m
  | .other => none

/-- lodash `_.flatten` applied to `(attachments || []).map(a => a.actions)`:
flattening one level keeps a non-array element (an `undefined` actions
property) as a single element of the result. -/
def flattenElem : Option (List (Option CRAction)) → List (Option CRAction)
  | none => [none]
  | some l => l

/-- Builds one `NotifactionAction` from a `CommandReferencingAction`: type
is hardcoded `"button"`, the registration name is read from the ambient
context, and the parameter object of the command is enumerated key by key. -/
def toNotifactionAction (registration : String) (cra : CRAction) : NotifactionAction :=
  { text := cra.text
    type := "button"
    registration := registration
    command := cra.command.name
    parameters := cra.command.parameters.map (fun p => { name := p.name, value := p.value })
    parameterName := none
    role := none }

/-- The action flattener of `messageSent`:
`_.flatten((slackMessage.attachments || []).map(a => a.actions)).filter(a => a).map(...)`. -/
def flattenActions (attachments : List Attachment) (registration : String) :
    List NotifactionAction :=
  ((((attachments.map (fun a => a.actions)).flatMap flattenElem).filterMap id).map
    (toNotifactionAction registration))

/-- The action-flattening algorithm as the spec words it (§4.3): concatenate
the action list of every attachment into one flat sequence, attachment order
first and within-attachment order second, dropping falsy entries, then
serialize each remaining action.  Stated from the words of the spec, to be
compared with `flattenActions` (which is translated from the source). -/
def specFlattenActions (attachments : List Attachment) (registration : String) :
    List NotifactionAction :=
  (attachments.flatMap (fun a => (a.actions.getD []).filterMap id)).map
    (toNotifactionAction registration)

/-- A deterministic textual serialization standing in for the host call
`JSON.stringify(slackMessage)`. -/
def renderCRA : Option CRAction → String
  | none => "!"
  | some a =>
    "act:" ++ a.text ++ ":" ++ a.command.name ++ ":"
      ++ String.join (a.command.parameters.map (fun p =>
          p.name ++ "=" ++ (p.value.getD "?") ++ ","))

/-- Serialization of one attachment (see `renderCRA`). -/
def renderAttachment (a : Attachment) : String :=
  match a.actions with
  | none => "att[]"
  | some l => "att[" ++ String.join (l.map renderCRA) ++ "]"

/-- Serialization of a whole slack message, the `body` of the built
notification (see `renderCRA`). -/
def stringifySlack (m : SlackMessage) : String :=
  "msg(text=" ++ (m.text.getD "?") ++ ";attachments="
    ++ (match m.attachments with
        | none => "?"
        | some l => String.join (l.map renderAttachment)) ++ ")"

/-- Construction of the base `Notification` (`const msg = {...}` in the
source): key falls back to `guid()`, ts to `Date.now()` (note JavaScript
truthiness: an explicit id `""` or ts `0` also falls back), ttl and post
are copied verbatim, the body is the serialized slack message, and the
content type is hardcoded to the slack JSON content type. -/
def mkNotification (sm : SlackMessage) (options : Option MessageOptions)
    (registration : String) (genId : String) (now : Nat) : Notification :=
  { key :=
      match options with
      | some o =>
        match o.id with
        | some s => if s.isEmpty then genId else s
        | none => genId
      | none => genId
    ts :=
      match options with
      | some o =>
        match o.ts with
        | some t => if t == 0 then now else t
        | none => now
      | none => now
    ttl := options.bind (fun o => o.ttl)
    post := options.bind (fun o => o.post)
    body := stringifySlack sm
    contentType := "application/x-atomist-slack+json"
    actions := flattenActions ((sm.attachments).getD []) registration
    recipient := none }

/-- `{ ..._.cloneDeep(msg), recipient: { address } }`: a deep copy of the
base notification with the recipient address attached. -/
def withAddress (msg : Notification) (address : String) : Notification :=
  { msg with recipient := some { address := address } }

/-- Whether `messageSent` takes the no-destinations branch:
`!destinations || (destinations as Destination[]).length === 0`.  A single
(non-array) destination has `length === undefined`, which is not `=== 0`. -/
def isCaseA : Destinations → Bool
  | .undef => true
  | .single _ => false
  | .array ds => ds.length == 0

/-- `Array.isArray(destinations) ? destinations : [destinations]`. -/
def destList : Destinations → List Dest
  | .undef => []
  | .single d => [d]
  | .array ds => ds

/-- `!!web && !!web.identity` for an origin descriptor. -/
def webIdentityPresent (s : Source) : Bool :=
  match s.web with
  | some w => w.identity.isSome
  | none => false

/-- `web.identity.sub` of an origin descriptor (only read under
`webIdentityPresent`). -/
def webSub (s : Source) : String :=
  match s.web with
  | some w =>
    match w.identity with
    | some i => i.sub
    | none => ""
  | none => ""

/-- The no-destinations branch of the resolver, dispatching on the ambient
request origin: authenticated web session, chat session (one identity
lookup, silent drop on no match), or anything else (bare workspace-wide
address). -/
def caseA (workspaceId : String) (msg : Notification)
    (lookup : String → String → Option String) : Option Source → Emission
  | some s =>
    if s.user_agent == "web" && webIdentityPresent s then
      { queries := [],
        events := [withAddress msg (workspaceId ++ "-" ++ webSub s)] }
    else if s.user_agent == "slack" then
      let q := (s.slack.teamId, s.slack.userName)
      match lookup s.slack.teamId s.slack.userName with
      | some login =>
        if login.isEmpty then { queries := [q], events := [] }
        else
          { queries := [q],
            events := [withAddress msg (workspaceId ++ "-" ++ login)] }
      | none => { queries := [q], events := [] }
    else { queries := [], events := [withAddress msg workspaceId] }
  | none => { queries := [], events := [withAddress msg workspaceId] }

/-- Collection of every (team, screenName) pair referenced by any
the `users` list of any destination, in destination order
(`users.push(...sd.users.map(u => ({ teamId: sd.team, screenName: u })))`). -/
def collectUsers (ds : List Dest) : List (String × String) :=
  ds.flatMap (fun d =>
    match d.users with
    | some us => us.map (fun u => (d.team, u))
    | none => [])

/-- Worker of `uniqSVZ`: keeps each element not already seen. -/
def uniqAux {α : Type} [DecidableEq α] (seen : List α) : List α → List α
  | [] => []
  | x :: xs => if x ∈ seen then uniqAux seen xs else x :: uniqAux (x :: seen) xs

/-- lodash `_.uniq`: keeps the first occurrence of each element under
SameValueZero equality. -/
def uniqSVZ {α : Type} [DecidableEq α] (l : List α) : List α :=
  uniqAux [] l

/-- `_.uniq(users)` as executed by the source: the elements are objects
freshly allocated by the collection loop, and SameValueZero on objects is
reference identity, so each element is tagged with its allocation index
before deduplicating. -/
def uniqUsers (users : List (String × String)) : List (String × String) :=
  (uniqSVZ users.enum).map Prod.snd

/-- One per-user step of the addressed-message branch: issue the identity
lookup, resolve the login with the raw screen name as the `_.get` default,
and publish `{workspaceId}-{login}` when the login is truthy. -/
def perUserStep (workspaceId : String) (msg : Notification)
    (lookup : String → String → Option String) (u : String × String) :
    List (String × String) × List Notification :=
  let login := (lookup u.1 u.2).getD u.2
  ([(u.1, u.2)],
   if login.isEmpty then []
   else [withAddress msg (workspaceId ++ "-" ++ login)])

/-- The addressed-message branch of the resolver: one workspace-wide
notification is always pushed, then one lookup-and-maybe-publish per
user reference kept by `_.uniq`. -/
def caseB (workspaceId : String) (msg : Notification)
    (lookup : String → String → Option String) (ds : List Dest) : Emission :=
  let users := collectUsers ds
  let wsEvent := withAddress msg workspaceId
  if users.length > 0 then
    let results := (uniqUsers users).map (perUserStep workspaceId msg lookup)
    { queries := results.flatMap Prod.fst,
      events := wsEvent :: results.flatMap Prod.snd }
  else { queries := [], events := [wsEvent] }

/-- The worker gate of `messageSent`:
`(this.clustered && cluster.isWorker) || !this.clustered`. -/
def proceeds (clustered isWorker : Bool) : Bool :=
  (clustered && isWorker) || !clustered

/-- The `messageSent` listener of `DashboardAutomationEventListener`
(`src/lib/dashboard.ts`), as the total observable effect of one
invocation. -/
def messageSent (clustered isWorker : Bool) (message : OutMessage)
    (destinations : Destinations) (options : Option MessageOptions)
    (ctx : Ctx) (lookup : String → String → Option String)
    (genId : String) (now : Nat) : Emission :=
  if proceeds clustered isWorker then
    let ignore := ignoreOf options
    match normalize message with
    | some slackMessage =>
      if !ignore then
        let msg := mkNotification slackMessage options ctx.registrationName genId now
        if isCaseA destinations then
          caseA ctx.workspaceId msg lookup ctx.source
        else
          caseB ctx.workspaceId msg lookup (destList destinations)
      else { queries := [], events := [] }
    | none => { queries := [], events := [] }
  else { queries := [], events := [] }

/-! ## Structural lemmas about the embedding -/

theorem uniqAux_eq_self {α : Type} [DecidableEq α] :
    ∀ (l seen : List α), l.Nodup → (∀ x ∈ l, x ∉ seen) → uniqAux seen l = l := by
  intro l
  induction l with
  | nil => intro seen _ _; rfl
  | cons x xs ih =>
    intro seen hnd hdis
    have hx : x ∉ seen := hdis x (List.mem_cons_self x xs)
    have hnd' := List.nodup_cons.mp hnd
    simp only [uniqAux, if_neg hx]
    congr 1
    apply ih _ hnd'.2
    intro y hy hmem
    rcases List.mem_cons.mp hmem with h | h
    · exact hnd'.1 (h ▸ hy)
    · exact hdis y (List.mem_cons_of_mem _ hy) h

theorem uniqSVZ_of_nodup {α : Type} [DecidableEq α] (l : List α) (h : l.Nodup) :
    uniqSVZ l = l :=
  uniqAux_eq_self l [] h (fun _ _ => List.not_mem_nil _)

theorem enum_nodup {α : Type} (l : List α) : l.enum.Nodup :=
  List.Nodup.of_map Prod.fst (List.nodup_enum_map_fst l)

/-- On this code path `_.uniq` is a no-op: the user records are freshly
allocated objects, pairwise distinct under reference identity, so nothing
is removed. -/
theorem uniqUsers_eq_self (users : List (String × String)) : uniqUsers users = users := by
  unfold uniqUsers
  rw [uniqSVZ_of_nodup _ (enum_nodup users)]
  exact List.enum_map_snd users

theorem hyphen_append_ne (ws l : String) : ws ++ "-" ++ l ≠ ws := by
  intro h
  have hl := congrArg String.length h
  rw [String.length_append, String.length_append,
    show ("-" : String).length = 1 from rfl] at hl
  omega

theorem caseA_events_shape (ws : String) (msg : Notification)
    (lookup : String → String → Option String) (src : Option Source)
    (e : Notification) (he : e ∈ (caseA ws msg lookup src).events) :
    ∃ a, e = withAddress msg a := by
  cases src with
  | none => simp only [caseA, List.mem_singleton] at he; exact ⟨_, he⟩
  | some s =>
    simp only [caseA] at he
    split at he
    · simp only [List.mem_singleton] at he; exact ⟨_, he⟩
    · split at he
      · split at he
        · split at he
          · simp at he
          · simp only [List.mem_singleton] at he; exact ⟨_, he⟩
        · simp at he
      · simp only [List.mem_singleton] at he; exact ⟨_, he⟩

theorem perUserStep_events_shape (ws : String) (msg : Notification)
    (lookup : String → String → Option String) (u : String × String)
    (e : Notification) (he : e ∈ (perUserStep ws msg lookup u).2) :
    ∃ l, e = withAddress msg (ws ++ "-" ++ l) := by
  simp only [perUserStep] at he
  split at he
  · simp at he
  · simp only [List.mem_singleton] at he; exact ⟨_, he⟩

theorem caseB_events_shape (ws : String) (msg : Notification)
    (lookup : String → String → Option String) (ds : List Dest)
    (e : Notification) (he : e ∈ (caseB ws msg lookup ds).events) :
    ∃ a, e = withAddress msg a := by
  simp only [caseB] at he
  split at he
  · rcases List.mem_cons.mp he with h | h
    · exact ⟨_, h⟩
    · rcases List.mem_flatMap.mp h with ⟨r, hr, her⟩
      rcases List.mem_map.mp hr with ⟨u, _, rfl⟩
      rcases perUserStep_events_shape ws msg lookup u e her with ⟨l, rfl⟩
      exact ⟨_, rfl⟩
  · simp only [List.mem_singleton] at he; exact ⟨_, he⟩

/-- Under the gate, recognition, non-ignore and non-empty-destination
hypotheses, `messageSent` reduces to the addressed-message branch. -/
theorem messageSent_eq_caseB (clustered isWorker : Bool) (message : OutMessage)
    (destinations : Destinations) (options : Option MessageOptions) (ctx : Ctx)
    (lookup : String → String → Option String) (genId : String) (now : Nat)
    (sm : SlackMessage)
    (hp : proceeds clustered isWorker = true)
    (hn : normalize message = some sm)
    (hi : ignoreOf options = false)
    (hd : isCaseA destinations = false) :
    messageSent clustered isWorker message destinations options ctx lookup genId now
      = caseB ctx.workspaceId
          (mkNotification sm options ctx.registrationName genId now)
          lookup (destList destinations) := by
  unfold messageSent
  rw [hp, hn, hi, hd]
  simp

/-- Under the gate, recognition and non-ignore hypotheses with no
destinations, `messageSent` reduces to the response-message branch. -/
theorem messageSent_eq_caseA (clustered isWorker : Bool) (message : OutMessage)
    (destinations : Destinations) (options : Option MessageOptions) (ctx : Ctx)
    (lookup : String → String → Option String) (genId : String) (now : Nat)
    (sm : SlackMessage)
    (hp : proceeds clustered isWorker = true)
    (hn : normalize message = some sm)
    (hi : ignoreOf options = false)
    (hd : isCaseA destinations = true) :
    messageSent clustered isWorker message destinations options ctx lookup genId now
      = caseA ctx.workspaceId
          (mkNotification sm options ctx.registrationName genId now)
          lookup ctx.source := by
  unfold messageSent
  rw [hp, hn, hi, hd]
  simp

theorem messageSent_events_shape (clustered isWorker : Bool) (message : OutMessage)
    (destinations : Destinations) (options : Option MessageOptions) (ctx : Ctx)
    (lookup : String → String → Option String) (genId : String) (now : Nat)
    (e : Notification)
    (he : e ∈ (messageSent clustered isWorker message destinations options ctx
      lookup genId now).events) :
    ∃ sm a, normalize message = some sm ∧
      e = withAddress (mkNotification sm options ctx.registrationName genId now) a := by
  by_cases hp : proceeds clustered isWorker = true
  · cases hn : normalize message with
    | none => unfold messageSent at he; rw [hp, hn] at he; simp at he
    | some sm =>
      by_cases hi : ignoreOf options = true
      · unfold messageSent at he; rw [hp, hn, hi] at he; simp at he
      · rw [Bool.not_eq_true] at hi
        by_cases hd : isCaseA destinations = true
        · rw [messageSent_eq_caseA clustered isWorker message destinations options
            ctx lookup genId now sm hp hn hi hd] at he
          rcases caseA_events_shape _ _ _ _ _ he with ⟨a, rfl⟩
          exact ⟨sm, a, rfl, rfl⟩
        · rw [Bool.not_eq_true] at hd
          rw [messageSent_eq_caseB clustered isWorker message destinations options
            ctx lookup genId now sm hp hn hi hd] at he
          rcases caseB_events_shape _ _ _ _ _ he with ⟨a, rfl⟩
          exact ⟨sm, a, rfl, rfl⟩
  · rw [Bool.not_eq_true] at hp
    unfold messageSent at he
    rw [hp] at he
    simp at he

theorem caseB_events_def (ws : String) (msg : Notification)
    (lookup : String → String → Option String) (ds : List Dest) :
    (caseB ws msg lookup ds).events = withAddress msg ws ::
      (if (collectUsers ds).length > 0 then
        (List.map (perUserStep ws msg lookup) (uniqUsers (collectUsers ds))).flatMap Prod.snd
       else []) := by
  simp only [caseB]
  split <;> rfl

theorem filter_ws_flatMap_nil (ws : String) (msg : Notification)
    (lookup : String → String → Option String) (us : List (String × String)) :
    ((us.map (perUserStep ws msg lookup)).flatMap Prod.snd).filter
      (fun e => e.recipient == some { address := ws }) = [] := by
  rw [List.filter_eq_nil_iff]
  intro e he
  rcases List.mem_flatMap.mp he with ⟨r, hr, her⟩
  rcases List.mem_map.mp hr with ⟨u, _, rfl⟩
  rcases perUserStep_events_shape ws msg lookup u e her with ⟨l, rfl⟩
  simp only [withAddress, beq_iff_eq, Option.some.injEq, Recipient.mk.injEq]
  exact hyphen_append_ne ws l

/-- In the addressed-message branch the events carrying the bare workspace
address are exactly the one unconditional workspace-wide notification: every
per-user event address has the shape `ws ++ "-" ++ login` and therefore
differs from `ws`. -/
theorem caseB_ws_filter (ws : String) (msg : Notification)
    (lookup : String → String → Option String) (ds : List Dest) :
    ((caseB ws msg lookup ds).events.filter
      (fun e => e.recipient == some { address := ws })) = [withAddress msg ws] := by
  have hws : ((withAddress msg ws).recipient == some { address := ws }) = true := by
    simp [withAddress]
  rw [caseB_events_def, List.filter_cons]
  simp only [hws, if_true]
  split
  · rw [filter_ws_flatMap_nil]
  · rfl

/-! ## The claims -/

/-- C1 (refuted; the spec states the intended behaviour, the code slips):
the relay is claimed to deduplicate (team, screen-name) pairs by value
equality and to issue at most one identity lookup (and publish at most one
per-user event) for the duplicate users `["bob", "bob"]` across two
destinations.  In the source, `_.uniq(users)` compares the freshly-allocated
user objects by SameValueZero — reference identity — so it never removes
anything: for two destinations both naming `"bob"`, two identity lookups are
issued and two per-user events are published. -/
theorem c1_uniq_never_dedups :
    (messageSent false false (.slack { text := some "hi", attachments := none })
        (.array [{ team := "T", channels := none, users := some ["bob"] },
                 { team := "T", channels := none, users := some ["bob"] }])
        none { workspaceId := "W", source := none, registrationName := "reg" }
        (fun _ _ => some "bobby") "g" 5).queries = [("T", "bob"), ("T", "bob")] ∧
    ((messageSent false false (.slack { text := some "hi", attachments := none })
        (.array [{ team := "T", channels := none, users := some ["bob"] },
                 { team := "T", channels := none, users := some ["bob"] }])
        none { workspaceId := "W", source := none, registrationName := "reg" }
        (fun _ _ => some "bobby") "g" 5).events.filter
      (fun e => e.recipient == some { address := "W-bobby" })).length = 2 := by
  decide

/-- C2: in the addressed-message branch (one or more destinations), for
every non-empty destination set the relay publishes exactly one
workspace-wide notification — addressed to the bare workspace id — in
addition to any per-user events, regardless of whether any destination
specifies a channel. -/
theorem c2_workspace_event_exactly_once (clustered isWorker : Bool)
    (message : OutMessage) (destinations : Destinations)
    (options : Option MessageOptions) (ctx : Ctx)
    (lookup : String → String → Option String) (genId : String) (now : Nat)
    (sm : SlackMessage)
    (hp : proceeds clustered isWorker = true)
    (hn : normalize message = some sm)
    (hi : ignoreOf options = false)
    (hd : isCaseA destinations = false) :
    ((messageSent clustered isWorker message destinations options ctx lookup
        genId now).events.filter
      (fun e => e.recipient == some { address := ctx.workspaceId }))
      = [withAddress (mkNotification sm options ctx.registrationName genId now)
          ctx.workspaceId] := by
  rw [messageSent_eq_caseB clustered isWorker message destinations options ctx
    lookup genId now sm hp hn hi hd]
  exact caseB_ws_filter _ _ _ _

/-- Witness for C2: a message with one channel-only destination still
produces exactly the one workspace-wide event. -/
theorem c2_workspace_event_exactly_once_witness :
    ((messageSent false false (.str "hi")
        (.array [{ team := "T", channels := some ["general"], users := none }])
        none { workspaceId := "W", source := none, registrationName := "reg" }
        (fun _ _ => none) "g" 5).events.filter
      (fun e => e.recipient == some { address := "W" }))
      = [withAddress (mkNotification { text := some "hi", attachments := none }
          none "reg" "g" 5) "W"] :=
  c2_workspace_event_exactly_once false false (.str "hi")
    (.array [{ team := "T", channels := some ["general"], users := none }])
    none { workspaceId := "W", source := none, registrationName := "reg" }
    (fun _ _ => none) "g" 5 { text := some "hi", attachments := none }
    rfl rfl rfl rfl

/-- C3 (counterexample): the claim says the content-type tag reflects
whether the source was a bare string (`text/plain`) or structured.  For the
bare string `"hi"` the relay publishes one event whose content type is the
slack JSON tag, not `text/plain`: the source wraps the string into a slack
message and hardcodes `contentType: "application/x-atomist-slack+json"`. -/
theorem c3_bare_string_slack_contentType :
    ((messageSent false false (.str "hi") .undef none
        { workspaceId := "W", source := none, registrationName := "r" }
        (fun _ _ => none) "g" 5).events.map (fun e => e.contentType))
      = ["application/x-atomist-slack+json"] ∧
    ("application/x-atomist-slack+json" : String) ≠ "text/plain" := by
  decide

/-- C3 (amended): the content-type tag of every forwarded notification is
always the slack JSON content type, for bare strings and structured
messages alike. -/
theorem c3_contentType_always_slack_json (clustered isWorker : Bool)
    (message : OutMessage) (destinations : Destinations)
    (options : Option MessageOptions) (ctx : Ctx)
    (lookup : String → String → Option String) (genId : String) (now : Nat) :
    (messageSent clustered isWorker message destinations options ctx lookup
        genId now).events.all
      (fun e => e.contentType == "application/x-atomist-slack+json") = true := by
  rw [List.all_eq_true]
  intro e he
  rcases messageSent_events_shape clustered isWorker message destinations options
    ctx lookup genId now e he with ⟨sm, a, _, rfl⟩
  simp [withAddress, mkNotification]

/-- C4: with no destinations and a chat-session origin, exactly one
identity lookup is issued with the chat team id and the screen name of the
chat user; if it returns a (non-empty) login, exactly one event is
published addressed `{workspaceId}-{login}`; if it returns nothing, nothing
is emitted. -/
theorem c4_chat_origin_single_lookup (clustered isWorker : Bool)
    (message : OutMessage) (destinations : Destinations)
    (options : Option MessageOptions) (ctx : Ctx)
    (lookup : String → String → Option String) (genId : String) (now : Nat)
    (sm : SlackMessage) (s : Source)
    (hp : proceeds clustered isWorker = true)
    (hn : normalize message = some sm)
    (hi : ignoreOf options = false)
    (hd : isCaseA destinations = true)
    (hs : ctx.source = some s)
    (hua : s.user_agent = "slack") :
    (messageSent clustered isWorker message destinations options ctx lookup
        genId now).queries = [(s.slack.teamId, s.slack.userName)] ∧
    (∀ login, lookup s.slack.teamId s.slack.userName = some login → login ≠ "" →
      (messageSent clustered isWorker message destinations options ctx lookup
          genId now).events
        = [withAddress (mkNotification sm options ctx.registrationName genId now)
            (ctx.workspaceId ++ "-" ++ login)]) ∧
    (lookup s.slack.teamId s.slack.userName = none →
      (messageSent clustered isWorker message destinations options ctx lookup
          genId now).events = []) := by
  rw [messageSent_eq_caseA clustered isWorker message destinations options ctx
    lookup genId now sm hp hn hi hd, hs]
  simp only [caseA, hua, show (("slack" : String) == "web") = false from rfl,
    Bool.false_and, if_false, show (("slack" : String) == "slack") = true from rfl,
    if_true]
  cases hl : lookup s.slack.teamId s.slack.userName with
  | none =>
    refine ⟨rfl, ?_, fun _ => rfl⟩
    intro login hlogin _
    cases hlogin
  | some l =>
    refine ⟨?_, ?_, ?_⟩
    · by_cases hemp : l.isEmpty = true
      · simp [hemp]
      · rw [Bool.not_eq_true] at hemp
        simp [hemp]
    · intro login hlogin hne
      injection hlogin with hEq
      subst hEq
      have hemp : l.isEmpty = false := by
        rw [Bool.eq_false_iff]
        intro hc
        exact hne ((String.isEmpty_iff l).mp hc)
      simp [hemp]
    · intro hcon
      cases hcon

/-- Witness for C4: chat origin with screen name `"al"` resolving to login
`"alice"` issues the one lookup and publishes the one event addressed
`W-alice`. -/
theorem c4_chat_origin_single_lookup_witness :
    (messageSent false false (.str "m") .undef none
        { workspaceId := "W",
          source := some { user_agent := "slack", web := none,
                           slack := { teamId := "T", userName := "al" } },
          registrationName := "r" }
        (fun _ _ => some "alice") "g" 7).queries = [("T", "al")] ∧
    (messageSent false false (.str "m") .undef none
        { workspaceId := "W",
          source := some { user_agent := "slack", web := none,
                           slack := { teamId := "T", userName := "al" } },
          registrationName := "r" }
        (fun _ _ => some "alice") "g" 7).events
      = [withAddress (mkNotification { text := some "m", attachments := none }
          none "r" "g" 7) ("W" ++ "-" ++ "alice")] := by
  have h := c4_chat_origin_single_lookup false false (.str "m") .undef none
    { workspaceId := "W",
      source := some { user_agent := "slack", web := none,
                       slack := { teamId := "T", userName := "al" } },
      registrationName := "r" }
    (fun _ _ => some "alice") "g" 7 { text := some "m", attachments := none }
    { user_agent := "slack", web := none, slack := { teamId := "T", userName := "al" } }
    rfl rfl rfl rfl rfl rfl
  exact ⟨h.1, h.2.1 "alice" rfl (by decide)⟩

/-- C5: in the addressed-message branch, every referenced user (a non-empty
screen name, per the glossary a chat handle) whose identity lookup returns
no match still receives one per-user notification addressed
`{workspaceId}-{screenName}` — the raw screen name is substituted by the
`_.get` default — instead of being dropped as in the no-destinations chat
branch. -/
theorem c5_caseB_screenName_fallback (clustered isWorker : Bool)
    (message : OutMessage) (destinations : Destinations)
    (options : Option MessageOptions) (ctx : Ctx)
    (lookup : String → String → Option String) (genId : String) (now : Nat)
    (sm : SlackMessage) (t sn : String)
    (hp : proceeds clustered isWorker = true)
    (hn : normalize message = some sm)
    (hi : ignoreOf options = false)
    (hd : isCaseA destinations = false)
    (hmem : (t, sn) ∈ collectUsers (destList destinations))
    (hlk : lookup t sn = none)
    (hsn : sn ≠ "") :
    withAddress (mkNotification sm options ctx.registrationName genId now)
        (ctx.workspaceId ++ "-" ++ sn)
      ∈ (messageSent clustered isWorker message destinations options ctx lookup
          genId now).events := by
  rw [messageSent_eq_caseB clustered isWorker message destinations options ctx
    lookup genId now sm hp hn hi hd, caseB_events_def]
  have hpos : (collectUsers (destList destinations)).length > 0 :=
    List.length_pos_of_mem hmem
  rw [if_pos hpos]
  apply List.mem_cons_of_mem
  rw [uniqUsers_eq_self]
  apply List.mem_flatMap.mpr
  refine ⟨perUserStep ctx.workspaceId _ lookup (t, sn),
    List.mem_map_of_mem _ hmem, ?_⟩
  have hemp : sn.isEmpty = false := by
    rw [Bool.eq_false_iff]
    intro hc
    exact hsn ((String.isEmpty_iff sn).mp hc)
  simp [perUserStep, hlk, hemp]

/-- Witness for C5: user `"carol"` whose lookup fails still gets the event
addressed `W-carol`. -/
theorem c5_caseB_screenName_fallback_witness :
    withAddress (mkNotification { text := some "hi", attachments := none }
        none "reg" "g" 5) ("W" ++ "-" ++ "carol")
      ∈ (messageSent false false (.str "hi")
          (.array [{ team := "T", channels := none, users := some ["carol"] }])
          none { workspaceId := "W", source := none, registrationName := "reg" }
          (fun _ _ => none) "g" 5).events :=
  c5_caseB_screenName_fallback false false (.str "hi")
    (.array [{ team := "T", channels := none, users := some ["carol"] }])
    none { workspaceId := "W", source := none, registrationName := "reg" }
    (fun _ _ => none) "g" 5 { text := some "hi", attachments := none }
    "T" "carol" rfl rfl rfl rfl (by decide) rfl (by decide)

/-- C6: when the worker gate — (clustering enabled AND this process is a
worker) OR clustering disabled — is false, the relay emits nothing: no
lookup is issued, no event is published, and the invocation resolves. -/
theorem c6_worker_gate (clustered isWorker : Bool) (message : OutMessage)
    (destinations : Destinations) (options : Option MessageOptions) (ctx : Ctx)
    (lookup : String → String → Option String) (genId : String) (now : Nat)
    (h : ((clustered && isWorker) || !clustered) = false) :
    messageSent clustered isWorker message destinations options ctx lookup genId now
      = { queries := [], events := [] } := by
  unfold messageSent
  rw [show proceeds clustered isWorker = false from h]
  simp

/-- Witness for C6: clustering enabled on a non-worker process emits
nothing. -/
theorem c6_worker_gate_witness :
    messageSent true false (.str "hi") .undef none
      { workspaceId := "W", source := none, registrationName := "r" }
      (fun _ _ => none) "g" 5 = { queries := [], events := [] } :=
  c6_worker_gate true false (.str "hi") .undef none
    { workspaceId := "W", source := none, registrationName := "r" }
    (fun _ _ => none) "g" 5 rfl

/-- C7: when the options id contains the substring `"lifecycle"`, or the
`dashboard` suppression flag is explicitly `false`, the relay
short-circuits: no identity lookup is issued and no event is published. -/
theorem c7_prefilter_short_circuit (clustered isWorker : Bool)
    (message : OutMessage) (destinations : Destinations) (o : MessageOptions)
    (ctx : Ctx) (lookup : String → String → Option String)
    (genId : String) (now : Nat)
    (h : (∃ s, o.id = some s ∧ includesStr s "lifecycle" = true)
          ∨ o.dashboard = some false) :
    messageSent clustered isWorker message destinations (some o) ctx lookup genId now
      = { queries := [], events := [] } := by
  have hig : ignoreOf (some o) = true := by
    rcases h with ⟨s, hid, hinc⟩ | hdb
    · have hs : s ≠ "" := by
        intro hempty
        have hinf := of_decide_eq_true hinc
        rw [hempty, show ("" : String).toList = [] from rfl] at hinf
        have hnil := List.infix_nil.mp hinf
        exact absurd hnil (by decide)
      simp only [ignoreOf, hid, Bool.or_eq_true, Bool.and_eq_true]
      left
      constructor
      · rw [Bool.not_eq_true']
        rw [Bool.eq_false_iff]
        intro hc
        exact hs ((String.isEmpty_iff s).mp hc)
      · exact hinc
    · simp [ignoreOf, hdb]
  unfold messageSent
  by_cases hp : proceeds clustered isWorker = true
  · rw [hp]
    cases hn : normalize message
    · simp
    · simp [hig]
  · rw [Bool.not_eq_true] at hp
    rw [hp]
    simp

/-- Witness for C7: an id containing `"lifecycle"` suppresses all output. -/
theorem c7_prefilter_short_circuit_witness :
    messageSent false false (.str "hi") .undef
      (some { id := some "my-lifecycle-msg", ts := none, ttl := none,
              post := none, dashboard := none })
      { workspaceId := "W", source := none, registrationName := "r" }
      (fun _ _ => none) "g" 5 = { queries := [], events := [] } :=
  c7_prefilter_short_circuit false false (.str "hi") .undef
    { id := some "my-lifecycle-msg", ts := none, ttl := none,
      post := none, dashboard := none }
    { workspaceId := "W", source := none, registrationName := "r" }
    (fun _ _ => none) "g" 5
    (Or.inl ⟨"my-lifecycle-msg", rfl, by decide⟩)

/-- C8: any two notification clones published for the same source event
share identical `key`, `ts`, `ttl`, `post`, `body` and `actions`; only the
recipient address differs (every published event is a deep copy of the one
base notification with a recipient attached). -/
theorem c8_clone_invariant (clustered isWorker : Bool) (message : OutMessage)
    (destinations : Destinations) (options : Option MessageOptions) (ctx : Ctx)
    (lookup : String → String → Option String) (genId : String) (now : Nat)
    (e1 e2 : Notification)
    (h1 : e1 ∈ (messageSent clustered isWorker message destinations options ctx
      lookup genId now).events)
    (h2 : e2 ∈ (messageSent clustered isWorker message destinations options ctx
      lookup genId now).events) :
    e1.key = e2.key ∧ e1.ts = e2.ts ∧ e1.ttl = e2.ttl ∧ e1.post = e2.post
      ∧ e1.body = e2.body ∧ e1.actions = e2.actions := by
  rcases messageSent_events_shape clustered isWorker message destinations options
    ctx lookup genId now e1 h1 with ⟨sm1, a1, hn1, rfl⟩
  rcases messageSent_events_shape clustered isWorker message destinations options
    ctx lookup genId now e2 h2 with ⟨sm2, a2, hn2, rfl⟩
  rw [hn1] at hn2
  injection hn2 with hEq
  subst hEq
  simp [withAddress]

/-- Witness for C8: the workspace-wide clone and the per-user clone of the
same source event agree on `key` and `actions`. -/
theorem c8_clone_invariant_witness :
    withAddress (mkNotification { text := some "hi", attachments := none }
        none "reg" "g" 5) "W"
      ∈ (messageSent false false (.str "hi")
          (.array [{ team := "T", channels := none, users := some ["bob"] }])
          none { workspaceId := "W", source := none, registrationName := "reg" }
          (fun _ _ => some "bobby") "g" 5).events ∧
    withAddress (mkNotification { text := some "hi", attachments := none }
        none "reg" "g" 5) "W-bobby"
      ∈ (messageSent false false (.str "hi")
          (.array [{ team := "T", channels := none, users := some ["bob"] }])
          none { workspaceId := "W", source := none, registrationName := "reg" }
          (fun _ _ => some "bobby") "g" 5).events ∧
    ((withAddress (mkNotification { text := some "hi", attachments := none }
        none "reg" "g" 5) "W").key
      = (withAddress (mkNotification { text := some "hi", attachments := none }
        none "reg" "g" 5) "W-bobby").key) ∧
    (withAddress (mkNotification { text := some "hi", attachments := none }
        none "reg" "g" 5) "W").actions
      = (withAddress (mkNotification { text := some "hi", attachments := none }
        none "reg" "g" 5) "W-bobby").actions := by
  refine ⟨by decide, by decide, ?_, ?_⟩
  · exact (c8_clone_invariant false false (.str "hi")
      (.array [{ team := "T", channels := none, users := some ["bob"] }])
      none { workspaceId := "W", source := none, registrationName := "reg" }
      (fun _ _ => some "bobby") "g" 5 _ _ (by decide) (by decide)).1
  · exact (c8_clone_invariant false false (.str "hi")
      (.array [{ team := "T", channels := none, users := some ["bob"] }])
      none { workspaceId := "W", source := none, registrationName := "reg" }
      (fun _ _ => some "bobby") "g" 5 _ _ (by decide) (by decide)).2.2.2.2.2

/-- C9: action flattening is order-preserving and filtering — it equals the
concatenation of the action list of each attachment in attachment order
then within-attachment order with falsy entries dropped (the spec-worded
`specFlattenActions`), every resulting action has type `"button"`, and in
particular attachments `[A1{actions:[a,b]}, A2{actions:[c]}]` yield the
sequence `[a,b,c]`. -/
theorem c9_action_flattening (attachments : List Attachment) (registration : String) :
    flattenActions attachments registration = specFlattenActions attachments registration
    ∧ (flattenActions attachments registration).all (fun a => a.type == "button") = true
    ∧ (flattenActions
        [{ actions := some [some { text := "a", command := { name := "ca", parameters := [] } },
                            some { text := "b", command := { name := "cb", parameters := [] } }] },
         { actions := some [some { text := "c", command := { name := "cc", parameters := [] } }] }]
        registration).map (fun a => a.text) = ["a", "b", "c"] := by
  refine ⟨?_, ?_, rfl⟩
  · induction attachments with
    | nil => rfl
    | cons a rest ih =>
      have h1 : flattenActions (a :: rest) registration
          = ((flattenElem a.actions).filterMap id).map (toNotifactionAction registration)
            ++ flattenActions rest registration := by
        simp [flattenActions, List.flatMap_cons, List.filterMap_append]
      have h2 : specFlattenActions (a :: rest) registration
          = ((a.actions.getD []).filterMap id).map (toNotifactionAction registration)
            ++ specFlattenActions rest registration := by
        simp [specFlattenActions, List.flatMap_cons, List.filterMap_append]
      rw [h1, h2, ih]
      congr 1
      cases a.actions <;> simp [flattenElem]
  · rw [List.all_eq_true]
    intro x hx
    rcases List.mem_map.mp hx with ⟨cra, _, rfl⟩
    rfl

/-- C10: with no destinations and a web-session origin that carries no
authenticated identity, the relay neither drops the event nor issues any
identity lookup: it publishes exactly one event addressed to the bare
workspace id, the same as for any unrecognized origin. -/
theorem c10_web_without_identity (clustered isWorker : Bool)
    (message : OutMessage) (destinations : Destinations)
    (options : Option MessageOptions) (ctx : Ctx)
    (lookup : String → String → Option String) (genId : String) (now : Nat)
    (sm : SlackMessage) (s : Source)
    (hp : proceeds clustered isWorker = true)
    (hn : normalize message = some sm)
    (hi : ignoreOf options = false)
    (hd : isCaseA destinations = true)
    (hs : ctx.source = some s)
    (hua : s.user_agent = "web")
    (hid : s.web.bind (fun w => w.identity) = none) :
    (messageSent clustered isWorker message destinations options ctx lookup
        genId now).queries = [] ∧
    (messageSent clustered isWorker message destinations options ctx lookup
        genId now).events
      = [withAddress (mkNotification sm options ctx.registrationName genId now)
          ctx.workspaceId] := by
  rw [messageSent_eq_caseA clustered isWorker message destinations options ctx
    lookup genId now sm hp hn hi hd, hs]
  have hwip : webIdentityPresent s = false := by
    unfold webIdentityPresent
    cases hw : s.web with
    | none => rfl
    | some w =>
      rw [hw] at hid
      simp only [Option.some_bind] at hid
      simp [hid]
  simp only [caseA, hua, hwip, Bool.and_false, if_false,
    show (("web" : String) == "slack") = false from rfl]
  exact ⟨rfl, rfl⟩

/-- Witness for C10: a web origin whose `web` record has no identity gets
one workspace-wide event and no lookup. -/
theorem c10_web_without_identity_witness :
    (messageSent false false (.str "m") .undef none
        { workspaceId := "W",
          source := some { user_agent := "web", web := some { identity := none },
                           slack := { teamId := "T", userName := "u" } },
          registrationName := "r" }
        (fun _ _ => some "x") "g" 7).queries = [] ∧
    (messageSent false false (.str "m") .undef none
        { workspaceId := "W",
          source := some { user_agent := "web", web := some { identity := none },
                           slack := { teamId := "T", userName := "u" } },
          registrationName := "r" }
        (fun _ _ => some "x") "g" 7).events
      = [withAddress (mkNotification { text := some "m", attachments := none }
          none "r" "g" 7) "W"] :=
  c10_web_without_identity false false (.str "m") .undef none
    { workspaceId := "W",
      source := some { user_agent := "web", web := some { identity := none },
                       slack := { teamId := "T", userName := "u" } },
      registrationName := "r" }
    (fun _ _ => some "x") "g" 7 { text := some "m", attachments := none }
    { user_agent := "web", web := some { identity := none },
      slack := { teamId := "T", userName := "u" } }
    rfl rfl rfl rfl rfl rfl rfl

end Dashboard
